import Mathlib

/-!
Shallow embedding of the hybrid decision engine of the Smart HIM Optimizer
backend (`backend/services/prediction_service.py`, `backend/services/him_service.py`,
`backend/models/predictors.py`, `backend/core/config.py`), together with proofs
checking the natural-language specification against it.

Modelling conventions:
- Python floats that only ever hold small decimal literals are modelled as `ℚ`.
- A dict entry that may be absent, present as `None`, or present with an
  integer value is modelled by `PyOptInt`; `dict.get(key, default)` then yields
  an `Option ℤ` whose `none` stands for the Python value `None`.
- Python code that can raise is modelled in `Except PyError`; comparing `None`
  with an integer raises `TypeError` in Python 3, which the embedding makes
  explicit at the single place the engine can hit it.
- Korean message strings are carried verbatim from the source.
-/

set_option autoImplicit false

namespace SmartHIM

/-- Runtime errors the embedded code can raise. -/
inductive PyError where
  | typeError (msg : String)
deriving DecidableEq, Repr

/-- An optional integer field of the admission dict: the key may be absent,
present with value `None`, or present with an integer. -/
inductive PyOptInt where
  | absent
  | null
  | val (n : ℤ)
deriving DecidableEq, Repr

/-- Models Python `data.get(key, default)` for a `PyOptInt` field. The result
is a Python value: `none` stands for `None`, `some n` for the integer `n`. -/
def PyOptInt.getD : PyOptInt → ℤ → Option ℤ
  | .absent, d => some d
  | .null, _ => Option.none
  | .val n, _ => some n

/-- The slice of the admission dict read by the rule-based engine.
The API layer always fills `principal_diagnosis` with a string (the request
schema requires it), while `length_of_stay` is optional and `admission_id`
may be absent. Dict keys the rule-based paths never read (age, gender,
department, secondary diagnoses, procedures, clinical notes) are omitted. -/
structure AdmissionData where
  principal_diagnosis : String
  length_of_stay : PyOptInt
  admission_id : Option String
deriving DecidableEq, Repr

/-- Models Python `str.startswith(p)`: the characters of `p` are a prefix of
the characters of `s`. -/
def strStartsWith (s p : String) : Bool :=
  p.data.isPrefixOf s.data

/-- Helper for `strContains`: `needle` occurs as a contiguous run in the list. -/
def listIsInfix (needle : List Char) : List Char → Bool
  | [] => needle.isEmpty
  | c :: t => needle.isPrefixOf (c :: t) || listIsInfix needle t

/-- Models the Python containment test `needle in haystack` on strings. -/
def strContains (haystack needle : String) : Bool :=
  listIsInfix needle.data haystack.data

/-- Models CPython `f"{q:.1f}"` for the nonnegative one-decimal rationals the
engine feeds it (0.1, 0.3, 0.9 each times 100, and the risk scores): round to
one decimal digit and render. -/
def fmt1f (q : ℚ) : String :=
  let t : ℤ := (q * 10 + 1/2).num / ((q * 10 + 1/2).den : ℤ)
  s!"{t / 10}.{t % 10}"

/-- `Settings.A_GROUP_THRESHOLD` from `backend/core/config.py`. -/
def A_GROUP_THRESHOLD : ℚ := 0.6

/-- An entry of the static upgrade-suggestion table
(`PredictionService._get_upgrade_suggestions`). -/
structure UpgradeSuggestion where
  type : String
  priority : String
  description : String
  expected_impact : ℚ
deriving DecidableEq, Repr

/-- Result shape of a group prediction (`PredictionService._predict_with_rules`). -/
structure GroupPrediction where
  predicted_group : String
  confidence : ℚ
  drg_code : String
  a_group_probability : ℚ
  can_upgrade : Bool
  upgrade_suggestions : List UpgradeSuggestion
deriving DecidableEq, Repr

/-- Result shape of a denial-risk prediction
(`PredictionService._predict_denial_with_rules`). -/
structure DenialRisk where
  denial_probability : ℚ
  risk_level : String
  risk_factors : List String
  recommendations : List String
deriving DecidableEq, Repr

namespace PredictionService

/-- `PredictionService._get_upgrade_suggestions`: static table keyed by the
predicted group; groups other than B and C get the empty list. -/
def getUpgradeSuggestions (currentGroup : String) (_diagnosis : String) :
    List UpgradeSuggestion :=
  if currentGroup = "B" then
    [⟨"documentation", "high", "합병증 상세 기록 추가", 0.15⟩,
     ⟨"diagnosis", "medium", "중증도 등급 재평가", 0.10⟩,
     ⟨"procedure", "medium", "수술/처치 기록 확인", 0.08⟩]
  else if currentGroup = "C" then
    [⟨"diagnosis", "high", "주진단 세부화", 0.12⟩,
     ⟨"documentation", "medium", "동반질환 기록 강화", 0.08⟩]
  else []

/-- `PredictionService._predict_with_rules`: rule-based group prediction.
The group is chosen by `diagnosis.startswith` against two fixed prefix
tuples, `a_group_probability` is a fixed lookup by group, and
`can_upgrade` compares it with the configured threshold. -/
def predictWithRules (data : AdmissionData) : GroupPrediction :=
  let diagnosis := data.principal_diagnosis
  let pg :=
    if strStartsWith diagnosis "A1" || strStartsWith diagnosis "A2" ||
       strStartsWith diagnosis "A3" || strStartsWith diagnosis "B1" ||
       strStartsWith diagnosis "B2" then ("A", (0.75 : ℚ))
    else if strStartsWith diagnosis "C1" || strStartsWith diagnosis "C2" ||
       strStartsWith diagnosis "D1" then ("C", (0.65 : ℚ))
    else ("B", (0.60 : ℚ))
  let predictedGroup := pg.1
  let confidence := pg.2
  let aGroupProbability : ℚ :=
    if predictedGroup = "B" then 0.3 else if predictedGroup = "C" then 0.1 else 0.9
  { predicted_group := predictedGroup
    confidence := confidence
    drg_code := predictedGroup ++ "001"
    a_group_probability := aGroupProbability
    can_upgrade := decide (aGroupProbability ≥ A_GROUP_THRESHOLD)
    upgrade_suggestions := getUpgradeSuggestions predictedGroup diagnosis }

/-- `PredictionService._get_denial_recommendations`: mitigation strings derived
by substring-matching the risk factors. -/
def getDenialRecommendations (riskFactors : List String) : List String :=
  let recs : List String := []
  let recs :=
    if riskFactors.any (fun factor => strContains factor "진단") then
      recs ++ ["진단 코드 정확성 확인"] else recs
  let recs :=
    if riskFactors.any (fun factor => strContains factor "재원") then
      recs ++ ["입퇴원일자 확인"] else recs
  if recs = [] then ["기록完整性 확인"] else recs

/-- `PredictionService._predict_denial_with_rules`: additive rule-based denial
scoring. Evaluating `los < 1` raises `TypeError` when `length_of_stay` is
present with value `None` (Python 3 forbids `None < int`). -/
def predictDenialWithRules (data : AdmissionData) : Except PyError DenialRisk := do
  let diagnosis := data.principal_diagnosis
  let riskScore : ℚ := 0
  let riskFactors : List String := []
  let sf :=
    if diagnosis = "" then (riskScore + 0.3, riskFactors ++ ["주진단 미기재"])
    else (riskScore, riskFactors)
  let sf :=
    if diagnosis.length < 3 then (sf.1 + 0.2, sf.2 ++ ["진단 코드 불명확"])
    else sf
  let los ← match data.length_of_stay.getD 0 with
    | some v => pure v
    | Option.none =>
        throw (PyError.typeError "unsupported operand type: NoneType and int")
  let sf :=
    if los < 1 ∨ los > 365 then (sf.1 + 0.2, sf.2 ++ [s!"비정상 재원일수: {los}일"])
    else sf
  let riskLevel :=
    if sf.1 ≥ 0.7 then "HIGH" else if sf.1 ≥ 0.4 then "MEDIUM" else "LOW"
  pure { denial_probability := min sf.1 1
         risk_level := riskLevel
         risk_factors := sf.2
         recommendations := getDenialRecommendations sf.2 }

/-- Loaded-model flags of the prediction service: `self.use_ml` together with
whether each predictor's global model handle is non-`None`
(`a_group_classifier.model`, `denial_predictor.model`). No prediction method
assigns to any of these. -/
structure ServiceState where
  use_ml : Bool
  a_group_model : Bool
  denial_model : Bool
deriving DecidableEq, Repr

/-- `PredictionService.predict_group`: when the learned classifier is in use it
is attempted first (modelled by the oracle `mlPredict`, standing for
`_predict_with_ml`, which may raise); any exception falls back to
`_predict_with_rules` for this call only. The method reads but never writes
the loaded-model flags, which the result carries alongside unchanged. -/
def predictGroup (st : ServiceState)
    (mlPredict : AdmissionData → Except PyError GroupPrediction)
    (data : AdmissionData) : GroupPrediction × ServiceState :=
  if st.use_ml && st.a_group_model then
    match mlPredict data with
    | .ok result => (result, st)
    | .error _ => (predictWithRules data, st)
  else (predictWithRules data, st)

/-- `PredictionService.predict_denial_risk`: the learned scorer (oracle
`mlPredictRisk`, standing for `denial_predictor.predict_risk`) is attempted
first when in use; any exception falls back to `_predict_denial_with_rules`
for this call only, with the loaded-model flags unchanged. -/
def predictDenialRisk (st : ServiceState)
    (mlPredictRisk : AdmissionData → Except PyError DenialRisk)
    (data : AdmissionData) : Except PyError DenialRisk × ServiceState :=
  if st.use_ml && st.denial_model then
    match mlPredictRisk data with
    | .ok result => (.ok result, st)
    | .error _ => (predictDenialWithRules data, st)
  else (predictDenialWithRules data, st)

/-- One row of the CMI table built in `PredictionService.predict_comprehensive`. -/
structure CmiRow where
  current : ℚ
  potential : ℚ
deriving DecidableEq, Repr

/-- The `cmi_values` dict lookup of `predict_comprehensive`:
`cmi_values.get(group, cmi_values["B"])`, so an unrecognized group falls back
to the B row. -/
def cmiValues (canUpgrade : Bool) (group : String) : CmiRow :=
  if group = "A" then ⟨1.3, 1.3⟩
  else if group = "B" then ⟨1.0, if canUpgrade then 1.3 else 1.0⟩
  else if group = "C" then ⟨0.7, if canUpgrade then 1.0 else 0.7⟩
  else ⟨1.0, if canUpgrade then 1.3 else 1.0⟩

/-- `PredictionService._generate_recommendations`: the comprehensive result's
synthesized recommendation list. It emits the upgrade message, then the
risk-level message for HIGH or MEDIUM, and nothing else. -/
def generateRecommendations (groupPred : GroupPrediction)
    (denialPred : DenialRisk) : List String :=
  let recs : List String := []
  let recs :=
    if groupPred.can_upgrade then
      recs ++ [s!"A그룹 전환 가능성: {fmt1f (groupPred.a_group_probability * 100)}%"]
    else recs
  let recs :=
    if denialPred.risk_level = "HIGH" || denialPred.risk_level = "MEDIUM" then
      recs ++ [s!"청구 삭감 위험: {denialPred.risk_level}"]
    else recs
  recs

/-- Result shape of `PredictionService.predict_comprehensive`. -/
structure ComprehensiveResult where
  group_prediction : GroupPrediction
  denial_risk : DenialRisk
  estimated_cmi : ℚ
  potential_cmi : ℚ
  revenue_impact : ℚ
  recommendations : List String
deriving DecidableEq, Repr

/-- `PredictionService.predict_comprehensive` on the rule-based path (no model
loaded, `use_ml = false`): group prediction, denial prediction, the CMI table
lookup and the revenue formula `(potential - current) * 300000`. -/
def predictComprehensiveRules (data : AdmissionData) :
    Except PyError ComprehensiveResult := do
  let groupPred := predictWithRules data
  let denialPred ← predictDenialWithRules data
  let group := groupPred.predicted_group
  let cmi := cmiValues groupPred.can_upgrade group
  let revenueImpact := (cmi.potential - cmi.current) * 300000
  pure { group_prediction := groupPred
         denial_risk := denialPred
         estimated_cmi := cmi.current
         potential_cmi := cmi.potential
         revenue_impact := revenueImpact
         recommendations := generateRecommendations groupPred denialPred }

end PredictionService

namespace DenialPredictor

/-- `DenialPredictor._get_risk_level` from `backend/models/predictors.py`. -/
def getRiskLevel (probability : ℚ) : String :=
  if probability ≥ 0.7 then "HIGH"
  else if probability ≥ 0.4 then "MEDIUM"
  else "LOW"

/-- The slice of the claim dict read by
`DenialPredictor._rule_based_prediction`: principal diagnosis, length of stay,
DRG code presence, and past-denial count. -/
structure ClaimData where
  principal_diagnosis : String
  length_of_stay : PyOptInt
  drg_code : String
  past_denials : ℤ
deriving DecidableEq, Repr

/-- `DenialPredictor._rule_based_prediction`: the predictors-module rule-based
denial scorer (used when the model handle is `None`). As in
`_predict_denial_with_rules`, a `None` length of stay raises `TypeError`. -/
def ruleBasedPrediction (claimData : ClaimData) : Except PyError DenialRisk := do
  let riskScore : ℚ := 0
  let riskFactors : List String := []
  let sf :=
    if claimData.principal_diagnosis = "" then
      (riskScore + 0.3, riskFactors ++ ["주진단 미기재"])
    else (riskScore, riskFactors)
  let los ← match claimData.length_of_stay.getD 0 with
    | some v => pure v
    | Option.none =>
        throw (PyError.typeError "unsupported operand type: NoneType and int")
  let sf :=
    if los < 1 ∨ los > 365 then (sf.1 + 0.2, sf.2 ++ [s!"비정상 재원일수: {los}일"])
    else sf
  let sf :=
    if claimData.drg_code = "" then (sf.1 + 0.3, sf.2 ++ ["DRG 코드 미지정"])
    else sf
  let sf :=
    if claimData.past_denials > 0 then (sf.1 + 0.2, sf.2 ++ ["과거 삭감 이력 존재"])
    else sf
  pure { denial_probability := min sf.1 1
         risk_level := getRiskLevel sf.1
         risk_factors := sf.2
         recommendations := [] }

/-- The learned path of `DenialPredictor.predict_risk`: the model's
second-class probability and the `_identify_risk_factors` output are left as
parameters (they come from the opaque model artifact and claim fields the
rule engine never reads); the risk level is computed from the returned
probability by `_get_risk_level`. -/
def predictRiskML (modelProb : ℚ) (factors : List String) : DenialRisk :=
  { denial_probability := modelProb
    risk_level := getRiskLevel modelProb
    risk_factors := factors
    recommendations := [] }

end DenialPredictor

namespace HIMService

/-- `HIMService._generate_recommendations`: the HIM-service synthesizer. It
emits the upgrade message, the high-risk warning only for risk level HIGH,
then one line per risk factor in scorer order. -/
def generateRecommendations (groupPred : GroupPrediction)
    (denialRisk : DenialRisk) : List String :=
  let recs : List String := []
  let recs :=
    if groupPred.can_upgrade then
      recs ++
        [s!"A그룹 전환 가능성 있음 ({fmt1f (groupPred.a_group_probability * 100)}%)"]
    else recs
  let recs :=
    if denialRisk.risk_level = "HIGH" then
      recs ++
        [s!"삭감 위험도 높음 ({fmt1f (denialRisk.denial_probability * 100)}%)"]
    else recs
  recs ++ denialRisk.risk_factors.map (fun rf => s!"위험 요인: {rf}")

/-- One entry of the list returned by `HIMService.batch_predict_admissions`:
either the per-record prediction with the record's admission id attached, or
an error entry carrying the same id and the exception's message. -/
inductive BatchEntry (α : Type) where
  | success (admission_id : Option String) (outcome : α)
  | failure (admission_id : Option String) (error_msg : String)
deriving DecidableEq, Repr

/-- The admission id carried by a batch entry. -/
def BatchEntry.admissionId {α : Type} : BatchEntry α → Option String
  | .success aid _ => aid
  | .failure aid _ => aid

/-- `HIMService.batch_predict_admissions`: loop over the records; each record
is predicted inside its own try/except, so an exception produces an error
entry for that record and the loop continues. `predictOutcome` stands for
`predict_admission_outcome` (whose body uses the learned predictors and the
retrieval collaborator); `α` is its result type. -/
def batchPredictAdmissions {α : Type}
    (predictOutcome : AdmissionData → Except PyError α) :
    List AdmissionData → List (BatchEntry α)
  | [] => []
  | record :: rest =>
    (match predictOutcome record with
     | .ok outcome => .success record.admission_id outcome
     | .error (.typeError msg) => .failure record.admission_id msg) ::
    batchPredictAdmissions predictOutcome rest

end HIMService

/-- Spec-derived (for comparison with `predictWithRules`): the rule-based group
and confidence as §4.2 of the spec words it, a function of the
principal-diagnosis code's first two characters alone — prefix sets
{A1,A2,A3,B1,B2} → ("A", 0.75), {C1,C2,D1} → ("C", 0.65),
otherwise ("B", 0.60). -/
def specGroupByFirstTwoChars (firstTwo : List Char) : String × ℚ :=
  if firstTwo ∈ [['A', '1'], ['A', '2'], ['A', '3'], ['B', '1'], ['B', '2']] then
    ("A", 0.75)
  else if firstTwo ∈ [['C', '1'], ['C', '2'], ['D', '1']] then ("C", 0.65)
  else ("B", 0.60)

/-- Spec-derived (for comparison with `cmiValues`): the CMI lookup table as
§4.4 of the spec words it — A → (1.3, 1.3); C → (0.7, 1.0 if upgradable else
0.7); B and any unrecognized group → (1.0, 1.3 if upgradable else 1.0). -/
def specCmiRow (canUpgrade : Bool) (group : String) : PredictionService.CmiRow :=
  if group = "A" then ⟨1.3, 1.3⟩
  else if group = "C" then ⟨0.7, if canUpgrade then 1.0 else 0.7⟩
  else ⟨1.0, if canUpgrade then 1.3 else 1.0⟩

/-- Holds when every successfully returned value satisfies `p`; an exception
trivially satisfies it. -/
def ExceptAll {ε α : Type} (p : α → Prop) : Except ε α → Prop
  | .ok a => p a
  | .error _ => True

/-- The additive denial score of `_predict_denial_with_rules`, written as the
spec words it. -/
def denialScore (pd : String) (los : ℤ) : ℚ :=
  (if pd = "" then 0.3 else 0) + (if pd.length < 3 then 0.2 else 0) +
    (if los < 1 ∨ los > 365 then 0.2 else 0)

/-- The risk-factor list of `_predict_denial_with_rules`, written as the spec
words it. -/
def denialFactors (pd : String) (los : ℤ) : List String :=
  (if pd = "" then ["주진단 미기재"] else []) ++
    (if pd.length < 3 then ["진단 코드 불명확"] else []) ++
    (if los < 1 ∨ los > 365 then [s!"비정상 재원일수: {los}일"] else [])

/-- Severity order of the risk levels, for stating monotonicity. -/
def levelRank (level : String) : ℕ :=
  if level = "HIGH" then 2 else if level = "MEDIUM" then 1 else 0

end SmartHIM

namespace SmartHIM

open PredictionService

/-! Helper lemmas shared by the claim theorems. -/

/-- A two-character list is a prefix exactly when it equals the first two
elements. -/
lemma isPrefixOf_pair (a b : Char) (l : List Char) :
    ([a, b].isPrefixOf l = true) ↔ l.take 2 = [a, b] := by
  match l with
  | [] => simp [List.isPrefixOf]
  | [c] => simp [List.isPrefixOf]
  | c :: d :: t =>
    simp only [List.isPrefixOf, Bool.and_eq_true, beq_iff_eq, List.take]
    constructor
    · rintro ⟨h1, h2, -⟩
      simp [h1, h2]
    · intro h
      injection h with h1 h2
      injection h2 with h2 h3
      simp [h1, h2, List.isPrefixOf]

/-- Full characterization of `_predict_denial_with_rules` when the length of
stay is an integer. -/
lemma denialRules_val_eq (pd : String) (v : ℤ) (aid : Option String) :
    predictDenialWithRules ⟨pd, .val v, aid⟩ = .ok
      { denial_probability := min (denialScore pd v) 1
        risk_level := DenialPredictor.getRiskLevel (denialScore pd v)
        risk_factors := denialFactors pd v
        recommendations := getDenialRecommendations (denialFactors pd v) } := by
  by_cases h1 : pd = "" <;> by_cases h2 : pd.length < 3 <;>
    by_cases h3 : v < 1 ∨ v > 365 <;>
      simp only [predictDenialWithRules, PyOptInt.getD, denialScore, denialFactors,
        DenialPredictor.getRiskLevel, bind, Except.bind, pure, Except.pure,
        h1, h2, h3, if_true, if_false, ite_true, ite_false, if_pos, if_neg,
        not_false_iff] <;>
      norm_num

/-- An absent length of stay behaves exactly like the default value 0. -/
lemma denialRules_absent_eq (pd : String) (aid : Option String) :
    predictDenialWithRules ⟨pd, .absent, aid⟩ =
      predictDenialWithRules ⟨pd, .val 0, aid⟩ := rfl

/-- A `None` length of stay raises `TypeError`. -/
lemma denialRules_null_eq (pd : String) (aid : Option String) :
    predictDenialWithRules ⟨pd, .null, aid⟩ =
      .error (.typeError "unsupported operand type: NoneType and int") := rfl

/-- The additive score never exceeds 1, so the clamp is the identity on it. -/
lemma denialScore_le_one (pd : String) (v : ℤ) : denialScore pd v ≤ 1 := by
  unfold denialScore
  split_ifs <;> norm_num

unseal Rat.ofScientific Rat.add Rat.mul Rat.sub Rat.inv in
/-- C1, counterexample: on the input of spec Scenario 2
(`principal_diagnosis = ""`, `length_of_stay = 400`, rule-based path) the code
returns `denial_probability = 0.7` and `risk_level = "HIGH"`, not the claimed
`0.5` and `"MEDIUM"`: the empty diagnosis triggers both the missing-diagnosis
contribution (0.3) and the short-code contribution (0.2), and the abnormal
stay adds 0.2. -/
theorem c1_scenario2_counterexample :
    (PredictionService.predictDenialWithRules
        ⟨"", .val 400, Option.none⟩).toOption.map
      (fun r => (r.denial_probability, r.risk_level)) = some (0.7, "HIGH") ∧
    ¬ ((0.7 : ℚ) = 0.5 ∧ ("HIGH" : String) = "MEDIUM") := by
  refine ⟨rfl, ?_⟩
  rintro ⟨h, -⟩
  norm_num at h

unseal Rat.ofScientific Rat.add Rat.mul Rat.sub Rat.inv in
/-- C1, amended: on the rule-based path with an integer (or absent, defaulted
to 0) length of stay, the denial probability is exactly the clamped sum of the
three additive contributions (0.3 for a missing principal diagnosis, 0.2 for a
diagnosis shorter than 3 characters, 0.2 for a length of stay below 1 or above
365), the risk factors are exactly the corresponding entries in that order,
and spec Scenario 2 yields probability min(0.3+0.2+0.2, 1) = 0.7 with risk
level HIGH and all three factors recorded. -/
theorem c1_denial_rules_additive :
    (∀ (pd : String) (v : ℤ) (aid : Option String),
      (PredictionService.predictDenialWithRules ⟨pd, .val v, aid⟩).toOption.map
          (fun r => (r.denial_probability, r.risk_factors)) =
        some (min (denialScore pd v) 1, denialFactors pd v)) ∧
    (∀ (pd : String) (aid : Option String),
      PredictionService.predictDenialWithRules ⟨pd, .absent, aid⟩ =
        PredictionService.predictDenialWithRules ⟨pd, .val 0, aid⟩) ∧
    (PredictionService.predictDenialWithRules
        ⟨"", .val 400, Option.none⟩).toOption.map
      (fun r => (r.denial_probability, r.risk_level, r.risk_factors)) =
      some (min (0.3 + 0.2 + 0.2) 1,
        ("HIGH", ["주진단 미기재", "진단 코드 불명확", "비정상 재원일수: 400일"])) := by
  refine ⟨?_, ?_, rfl⟩
  · intro pd v aid
    rw [denialRules_val_eq]
    rfl
  · intro pd aid
    exact denialRules_absent_eq pd aid

unseal Rat.ofScientific Rat.add Rat.mul Rat.sub Rat.inv in
/-- C2, code bug: a well-formed request that simply omits the optional
`length_of_stay` reaches the engine as the dict value `None` (the API layer
always fills the key from the optional schema field), and
`_predict_denial_with_rules` then evaluates `None < 1`, raising `TypeError` —
so `predict_denial_risk` and `predict_comprehensive` propagate an exception
(surfaced as HTTP 500) instead of treating the absence as a risk signal,
contradicting the spec and the repository's own test
`test_predict_comprehensive_with_admission_id`. A record with the key truly
absent is handled (defaulted to 0 and scored as a risk factor). -/
theorem c2_none_length_of_stay_type_error :
    PredictionService.predictDenialWithRules ⟨"A01", .null, some "ADM001"⟩ =
      .error (.typeError "unsupported operand type: NoneType and int") ∧
    PredictionService.predictComprehensiveRules ⟨"A01", .null, some "ADM001"⟩ =
      .error (.typeError "unsupported operand type: NoneType and int") ∧
    (PredictionService.predictDenialWithRules
        ⟨"A01", .absent, some "ADM001"⟩).toOption.map
      (fun r => (r.denial_probability, r.risk_factors)) =
      some (0.2, ["비정상 재원일수: 0일"]) := by
  exact ⟨rfl, rfl, rfl⟩

unseal Rat.ofScientific Rat.add Rat.mul Rat.sub Rat.inv in
/-- C3, confirmed: on the rule-based path the predicted group and confidence
are a function of the first two characters of the principal diagnosis alone,
given by the fixed prefix sets {A1,A2,A3,B1,B2} → ("A", 0.75),
{C1,C2,D1} → ("C", 0.65), otherwise ("B", 0.60); the DRG code is always the
group followed by "001"; and spec Scenario 1 ("A11", no model) yields
("A", 0.75, "A001"). -/
theorem c3_rules_group_by_first_two_chars :
    (∀ d : AdmissionData,
      ((PredictionService.predictWithRules d).predicted_group,
        (PredictionService.predictWithRules d).confidence) =
        specGroupByFirstTwoChars (d.principal_diagnosis.data.take 2)) ∧
    (∀ d : AdmissionData,
      (PredictionService.predictWithRules d).drg_code =
        (PredictionService.predictWithRules d).predicted_group ++ "001") ∧
    ((PredictionService.predictWithRules ⟨"A11", .absent, Option.none⟩).predicted_group,
      (PredictionService.predictWithRules ⟨"A11", .absent, Option.none⟩).confidence,
      (PredictionService.predictWithRules ⟨"A11", .absent, Option.none⟩).drg_code) =
      ("A", 0.75, "A001") := by
  refine ⟨?_, ?_, rfl⟩
  · intro d
    simp only [PredictionService.predictWithRules, specGroupByFirstTwoChars,
      strStartsWith,
      show ("A1" : String).data = ['A', '1'] from rfl,
      show ("A2" : String).data = ['A', '2'] from rfl,
      show ("A3" : String).data = ['A', '3'] from rfl,
      show ("B1" : String).data = ['B', '1'] from rfl,
      show ("B2" : String).data = ['B', '2'] from rfl,
      show ("C1" : String).data = ['C', '1'] from rfl,
      show ("C2" : String).data = ['C', '2'] from rfl,
      show ("D1" : String).data = ['D', '1'] from rfl,
      Bool.or_eq_true, isPrefixOf_pair, List.mem_cons, List.mem_singleton,
      List.not_mem_nil, or_false]
    split_ifs <;> first | rfl | tauto
  · intro d
    simp only [PredictionService.predictWithRules]

unseal Rat.ofScientific Rat.add Rat.mul Rat.sub Rat.inv in
/-- On the rule-based path the CMI row selected by `predict_comprehensive`
always has `potential = current`: group A pins both at 1.3, and groups B and C
are not upgradable under the fixed probability lookup. -/
lemma rules_cmi_no_gap (d : AdmissionData) :
    (PredictionService.cmiValues (PredictionService.predictWithRules d).can_upgrade
        (PredictionService.predictWithRules d).predicted_group).potential =
      (PredictionService.cmiValues (PredictionService.predictWithRules d).can_upgrade
        (PredictionService.predictWithRules d).predicted_group).current := by
  simp only [PredictionService.predictWithRules, PredictionService.cmiValues]
  split_ifs <;>
    first
      | rfl
      | simp_all [show decide ((0.3 : ℚ) ≥ A_GROUP_THRESHOLD) = false from rfl,
          show decide ((0.1 : ℚ) ≥ A_GROUP_THRESHOLD) = false from rfl]

/-- Multiplying by the positive revenue unit preserves the sign of the CMI
difference. -/
lemma revenue_pos_iff (row : PredictionService.CmiRow) :
    0 < (row.potential - row.current) * 300000 ↔ row.current < row.potential := by
  constructor <;> intro h <;> nlinarith

unseal Rat.ofScientific Rat.add Rat.mul Rat.sub Rat.inv in
/-- C10, confirmed: under the rule-based classifier with the default threshold
0.6, `can_upgrade` holds exactly when the predicted group is A (the fixed
lookup gives A→0.9, B→0.3, C→0.1), and consequently every rule-based
`predict_comprehensive` result has `revenue_impact = 0`; the Scenario-like
instance "C10" shows the statement is not vacuous. -/
theorem c10_rules_no_positive_revenue :
    (∀ d : AdmissionData,
      (PredictionService.predictWithRules d).can_upgrade =
        decide ((PredictionService.predictWithRules d).predicted_group = "A")) ∧
    (∀ d : AdmissionData,
      (PredictionService.predictComprehensiveRules d).toOption.map
          (fun r => r.revenue_impact) =
        (PredictionService.predictComprehensiveRules d).toOption.map
          (fun _ => (0 : ℚ))) ∧
    (PredictionService.predictComprehensiveRules
        ⟨"C10", .val 3, Option.none⟩).toOption.map
      (fun r => (r.group_prediction.predicted_group,
        r.group_prediction.can_upgrade, r.revenue_impact)) =
      some ("C", false, 0) := by
  refine ⟨?_, ?_, rfl⟩
  · intro d
    simp only [PredictionService.predictWithRules]
    split_ifs <;> first | rfl | simp_all
  · intro d
    have hgap := rules_cmi_no_gap d
    simp only [PredictionService.predictComprehensiveRules, bind, Except.bind]
    cases PredictionService.predictDenialWithRules d with
    | error e => rfl
    | ok dp =>
      simp only [pure, Except.pure, Except.toOption, Option.map_some']
      rw [hgap, sub_self, zero_mul]

unseal Rat.ofScientific Rat.add Rat.mul Rat.sub Rat.inv in
/-- C4, confirmed: the CMI table of `predict_comprehensive` agrees with the
spec's fixed lookup (A → (1.3, 1.3); B → (1.0, 1.3 if upgradable else 1.0);
C → (0.7, 1.0 if upgradable else 0.7); unrecognized group → the B row), the
returned revenue impact always equals (potential − current) × 300000, and spec
Scenario 3 ("B50", group B, not upgradable) yields estimated 1.0, potential
1.0, revenue 0. -/
theorem c4_cmi_lookup_and_revenue :
    (∀ (cu : Bool) (g : String),
      PredictionService.cmiValues cu g = specCmiRow cu g) ∧
    (∀ d : AdmissionData,
      (PredictionService.predictComprehensiveRules d).toOption.map
          (fun r => r.revenue_impact) =
        (PredictionService.predictComprehensiveRules d).toOption.map
          (fun r => (r.potential_cmi - r.estimated_cmi) * 300000)) ∧
    ((PredictionService.predictComprehensiveRules
        ⟨"B50", .val 5, Option.none⟩).toOption.map
      (fun r => (r.estimated_cmi, r.potential_cmi, r.revenue_impact)) =
      some (1.0, 1.0, 0)) := by
  refine ⟨?_, ?_, rfl⟩
  · intro cu g
    simp only [PredictionService.cmiValues, specCmiRow]
    split_ifs <;> simp_all
  · intro d
    simp only [PredictionService.predictComprehensiveRules, bind, Except.bind]
    cases PredictionService.predictDenialWithRules d with
    | error e => rfl
    | ok dp => rfl

unseal Rat.ofScientific Rat.add Rat.mul Rat.sub Rat.inv in
/-- C5, counterexample: for the rule-based input "A11" the group prediction is
upgradable (`can_upgrade = true`) yet `revenue_impact = 0` (the A row has
potential = current = 1.3), so revenue is not strictly positive whenever
`can_upgrade` is true. -/
theorem c5_upgradable_zero_revenue_counterexample :
    (PredictionService.predictComprehensiveRules
        ⟨"A11", .val 5, Option.none⟩).toOption.map
      (fun r => (r.group_prediction.can_upgrade, r.revenue_impact)) =
      some (true, 0) ∧ ¬ ((0 : ℚ) > 0) := by
  exact ⟨rfl, by norm_num⟩

unseal Rat.ofScientific Rat.add Rat.mul Rat.sub Rat.inv in
/-- C5, amended: the sign of `revenue_impact` always equals the sign of
(potential − estimated) CMI; revenue is zero whenever `can_upgrade` is false;
and when `can_upgrade` is true revenue is strictly positive exactly for groups
other than A (for group A both CMI values are 1.3, so revenue is zero). -/
theorem c5_revenue_sign :
    (∀ (cu : Bool) (g : String),
      (0 < ((PredictionService.cmiValues cu g).potential -
          (PredictionService.cmiValues cu g).current) * 300000 ↔
        (PredictionService.cmiValues cu g).current <
          (PredictionService.cmiValues cu g).potential)) ∧
    (∀ g : String,
      ((PredictionService.cmiValues false g).potential -
        (PredictionService.cmiValues false g).current) * 300000 = 0) ∧
    (∀ g : String,
      (0 < ((PredictionService.cmiValues true g).potential -
          (PredictionService.cmiValues true g).current) * 300000 ↔ ¬ (g = "A"))) ∧
    (∀ d : AdmissionData,
      (PredictionService.predictComprehensiveRules d).toOption.map
          (fun r => decide (0 < r.revenue_impact)) =
        (PredictionService.predictComprehensiveRules d).toOption.map
          (fun r => decide (r.estimated_cmi < r.potential_cmi))) := by
  refine ⟨fun cu g => revenue_pos_iff _, ?_, ?_, ?_⟩
  · intro g
    simp only [PredictionService.cmiValues]
    split_ifs <;> simp_all
  · intro g
    by_cases hg : g = "A"
    · simp only [PredictionService.cmiValues, hg, if_pos rfl]
      norm_num
    · rw [iff_true_right hg]
      rw [revenue_pos_iff]
      simp only [PredictionService.cmiValues, if_neg hg]
      split_ifs <;> norm_num
  · intro d
    simp only [PredictionService.predictComprehensiveRules, bind, Except.bind]
    cases PredictionService.predictDenialWithRules d with
    | error e => rfl
    | ok dp =>
      simp only [pure, Except.pure, Except.toOption, Option.map_some']
      congr 1
      rw [decide_eq_decide]
      exact revenue_pos_iff _

unseal Rat.ofScientific Rat.add Rat.mul Rat.sub Rat.inv in
/-- C6, counterexample: neither synthesizer matches the claimed ordering
policy. The comprehensive-prediction synthesizer
(`PredictionService._generate_recommendations`) never appends the risk
factors: with one risk factor and level HIGH it returns only the risk-level
message (one entry, not two). The HIM-service synthesizer
(`HIMService._generate_recommendations`) emits the risk-level message only for
HIGH: with level MEDIUM and no factors it returns the empty list, although the
claim requires a risk-level message there. -/
theorem c6_synthesizer_order_counterexample :
    PredictionService.generateRecommendations
        ⟨"B", 0.6, "B001", 0.3, false, []⟩
        ⟨0.5, "HIGH", ["진단 코드 불명확"], []⟩ = ["청구 삭감 위험: HIGH"] ∧
    ¬ ((PredictionService.generateRecommendations
        ⟨"B", 0.6, "B001", 0.3, false, []⟩
        ⟨0.5, "HIGH", ["진단 코드 불명확"], []⟩).length = 2) ∧
    HIMService.generateRecommendations
        ⟨"B", 0.6, "B001", 0.3, false, []⟩
        ⟨0.5, "MEDIUM", [], []⟩ = [] := by
  refine ⟨rfl, ?_, rfl⟩
  rw [show PredictionService.generateRecommendations
      ⟨"B", 0.6, "B001", 0.3, false, []⟩
      ⟨0.5, "HIGH", ["진단 코드 불명확"], []⟩ = ["청구 삭감 위험: HIGH"] from rfl]
  simp

unseal Rat.ofScientific Rat.add Rat.mul Rat.sub Rat.inv in
/-- C6, amended: the two synthesizers are fully characterized.
`PredictionService._generate_recommendations` emits the upgrade message when
`can_upgrade`, then the risk-level message when the level is HIGH or MEDIUM,
and nothing else — risk factors are never appended.
`HIMService._generate_recommendations` emits the upgrade message when
`can_upgrade`, then the high-risk warning only when the level is HIGH, then
one "위험 요인: …" line per risk factor in scorer order. -/
theorem c6_synthesizers_characterized :
    (∀ (gp : GroupPrediction) (dp : DenialRisk),
      PredictionService.generateRecommendations gp dp =
        (if gp.can_upgrade then
          [s!"A그룹 전환 가능성: {fmt1f (gp.a_group_probability * 100)}%"] else []) ++
        (if dp.risk_level = "HIGH" || dp.risk_level = "MEDIUM" then
          [s!"청구 삭감 위험: {dp.risk_level}"] else [])) ∧
    (∀ (gp : GroupPrediction) (dp : DenialRisk),
      HIMService.generateRecommendations gp dp =
        (if gp.can_upgrade then
          [s!"A그룹 전환 가능성 있음 ({fmt1f (gp.a_group_probability * 100)}%)"]
        else []) ++
        (if dp.risk_level = "HIGH" then
          [s!"삭감 위험도 높음 ({fmt1f (dp.denial_probability * 100)}%)"] else []) ++
        dp.risk_factors.map (fun rf => s!"위험 요인: {rf}")) := by
  constructor
  · intro gp dp
    simp only [PredictionService.generateRecommendations]
    split_ifs <;> simp
  · intro gp dp
    simp only [HIMService.generateRecommendations]
    split_ifs <;> simp

unseal Rat.ofScientific Rat.add Rat.mul Rat.sub Rat.inv in
/-- C7, confirmed: `_get_risk_level` classifies HIGH iff probability ≥ 0.7,
MEDIUM iff 0.4 ≤ probability < 0.7, LOW iff probability < 0.4 (boundary values
classify as the higher tier); the classification is monotone non-decreasing in
the probability; and on both rule-based denial paths the returned risk level
always equals the level computed from the returned, clamped probability (the
additive scores never exceed 1, so the clamp is the identity there); on the
learned path the level is computed from the returned probability directly. -/
theorem c7_risk_level_thresholds :
    (∀ p : ℚ,
      (DenialPredictor.getRiskLevel p = "HIGH" ↔ 0.7 ≤ p) ∧
      (DenialPredictor.getRiskLevel p = "MEDIUM" ↔ 0.4 ≤ p ∧ p < 0.7) ∧
      (DenialPredictor.getRiskLevel p = "LOW" ↔ p < 0.4)) ∧
    (∀ p q : ℚ, p ≤ q →
      levelRank (DenialPredictor.getRiskLevel p) ≤
        levelRank (DenialPredictor.getRiskLevel q)) ∧
    (∀ d : AdmissionData, ExceptAll
      (fun r => r.risk_level = DenialPredictor.getRiskLevel r.denial_probability)
      (PredictionService.predictDenialWithRules d)) ∧
    (∀ c : DenialPredictor.ClaimData, ExceptAll
      (fun r => r.risk_level = DenialPredictor.getRiskLevel r.denial_probability)
      (DenialPredictor.ruleBasedPrediction c)) ∧
    (∀ (p : ℚ) (factors : List String),
      (DenialPredictor.predictRiskML p factors).risk_level =
        DenialPredictor.getRiskLevel
          (DenialPredictor.predictRiskML p factors).denial_probability) := by
  refine ⟨?_, ?_, ?_, ?_, fun p factors => rfl⟩
  · intro p
    unfold DenialPredictor.getRiskLevel
    split_ifs with h1 h2
    · refine ⟨iff_of_true rfl h1, ?_, ?_⟩
      · refine iff_of_false (by decide) ?_
        rintro ⟨-, hlt⟩
        linarith
      · refine iff_of_false (by decide) ?_
        intro hlt
        linarith
    · refine ⟨?_, ?_, ?_⟩
      · refine iff_of_false (by decide) ?_
        intro hle
        exact h1 hle
      · exact iff_of_true rfl ⟨h2, not_le.mp h1⟩
      · refine iff_of_false (by decide) ?_
        intro hlt
        linarith
    · refine ⟨?_, ?_, ?_⟩
      · refine iff_of_false (by decide) ?_
        intro hle
        exact h1 hle
      · refine iff_of_false (by decide) ?_
        rintro ⟨hge, -⟩
        exact h2 hge
      · exact iff_of_true rfl (not_le.mp h2)
  · intro p q hpq
    unfold DenialPredictor.getRiskLevel
    split_ifs <;>
      simp only [show levelRank "HIGH" = 2 from rfl,
        show levelRank "MEDIUM" = 1 from rfl,
        show levelRank "LOW" = 0 from rfl] <;>
      linarith
  · intro d
    rcases d with ⟨pd, los, aid⟩
    have hval : ∀ v : ℤ, ExceptAll
        (fun r => r.risk_level = DenialPredictor.getRiskLevel r.denial_probability)
        (PredictionService.predictDenialWithRules ⟨pd, .val v, aid⟩) := by
      intro v
      rw [denialRules_val_eq]
      show DenialPredictor.getRiskLevel (denialScore pd v) =
        DenialPredictor.getRiskLevel (min (denialScore pd v) 1)
      rw [min_eq_left (denialScore_le_one pd v)]
    cases los with
    | absent => rw [denialRules_absent_eq]; exact hval 0
    | null => rw [denialRules_null_eq]; exact trivial
    | val v => exact hval v
  · intro c
    rcases c with ⟨pd, los, drg, past⟩
    have hval : ∀ v : ℤ, ExceptAll
        (fun r => r.risk_level = DenialPredictor.getRiskLevel r.denial_probability)
        (DenialPredictor.ruleBasedPrediction ⟨pd, .val v, drg, past⟩) := by
      intro v
      by_cases h1 : pd = "" <;> by_cases h2 : v < 1 ∨ v > 365 <;>
        by_cases h3 : drg = "" <;> by_cases h4 : past > 0 <;>
          simp only [DenialPredictor.ruleBasedPrediction, PyOptInt.getD,
            bind, Except.bind, pure, Except.pure, h1, h2, h3, h4, if_true,
            if_false, ite_true, ite_false, if_pos, if_neg, not_false_iff,
            ExceptAll] <;>
          norm_num [DenialPredictor.getRiskLevel, min_def]
    cases los with
    | absent => exact hval 0
    | null => exact trivial
    | val v => exact hval v

unseal Rat.ofScientific Rat.add Rat.mul Rat.sub Rat.inv in
/-- Witness for C7: the monotonicity conjunct applied at the concrete
probabilities 0.3 and 0.8, and the HIGH boundary iff applied at 0.7. -/
theorem c7_risk_level_thresholds_witness :
    levelRank (DenialPredictor.getRiskLevel 0.3) ≤
      levelRank (DenialPredictor.getRiskLevel 0.8) ∧
    (DenialPredictor.getRiskLevel 0.7 = "HIGH" ↔ (0.7 : ℚ) ≤ 0.7) :=
  ⟨c7_risk_level_thresholds.2.1 0.3 0.8 (by norm_num),
    (c7_risk_level_thresholds.1 0.7).1⟩

/-- Entry `i` of the batch result depends only on record `i`: it is the
per-record step applied to that record alone. -/
lemma batchPredict_getElem {α : Type}
    (p : AdmissionData → Except PyError α) (records : List AdmissionData)
    (i : ℕ) :
    (HIMService.batchPredictAdmissions p records)[i]? =
      (records[i]?).map (fun rec =>
        match p rec with
        | .ok outcome => HIMService.BatchEntry.success rec.admission_id outcome
        | .error (.typeError msg) =>
            HIMService.BatchEntry.failure rec.admission_id msg) := by
  induction records generalizing i with
  | nil => simp [HIMService.batchPredictAdmissions]
  | cons r t ih =>
    cases i with
    | zero => simp [HIMService.batchPredictAdmissions]
    | succ j => simpa [HIMService.batchPredictAdmissions] using ih j

/-- C8, confirmed: the batch prediction of `HIMService.batch_predict_admissions`
returns exactly one entry per input record; each entry carries its own input's
admission identifier; and the per-record try/except isolates failures — a
record whose prediction raises degrades to an error entry while every record
whose prediction succeeds still yields its success entry, whatever happens to
the other records. -/
theorem c8_batch_isolation :
    ∀ {α : Type} (p : AdmissionData → Except PyError α)
      (records : List AdmissionData),
      (HIMService.batchPredictAdmissions p records).length = records.length ∧
      (∀ i : ℕ,
        ((HIMService.batchPredictAdmissions p records)[i]?).map
            HIMService.BatchEntry.admissionId =
          (records[i]?).map AdmissionData.admission_id) ∧
      (∀ (i : ℕ) (rec : AdmissionData) (outcome : α),
        records[i]? = some rec → p rec = .ok outcome →
        (HIMService.batchPredictAdmissions p records)[i]? =
          some (.success rec.admission_id outcome)) ∧
      (∀ (i : ℕ) (rec : AdmissionData) (msg : String),
        records[i]? = some rec → p rec = .error (.typeError msg) →
        (HIMService.batchPredictAdmissions p records)[i]? =
          some (.failure rec.admission_id msg)) := by
  intro α p records
  refine ⟨?_, ?_, ?_, ?_⟩
  · induction records with
    | nil => rfl
    | cons r t ih => simpa [HIMService.batchPredictAdmissions] using ih
  · intro i
    rw [batchPredict_getElem]
    cases h : records[i]? with
    | none => rfl
    | some rec =>
      cases hp : p rec with
      | ok outcome => simp [HIMService.BatchEntry.admissionId, hp]
      | error e =>
        cases e with
        | typeError msg => simp [HIMService.BatchEntry.admissionId, hp]
  · intro i rec outcome h1 h2
    rw [batchPredict_getElem, h1]
    simp [h2]
  · intro i rec msg h1 h2
    rw [batchPredict_getElem, h1]
    simp [h2]

/-- Witness for C8, following spec Scenario 4: a batch of two records in which
the second record's prediction raises (a corrupt feature) still yields exactly
two entries, the first a valid result and the second an error entry, each
under its own admission identifier. -/
theorem c8_batch_isolation_witness :
    (HIMService.batchPredictAdmissions
        (fun r => if r.admission_id = some "ADM2" then
            Except.error (PyError.typeError "corrupt feature")
          else Except.ok (0 : ℕ))
        [⟨"I50", .val 5, some "ADM1"⟩, ⟨"A01", .val 3, some "ADM2"⟩]).length = 2 ∧
    (HIMService.batchPredictAdmissions
        (fun r => if r.admission_id = some "ADM2" then
            Except.error (PyError.typeError "corrupt feature")
          else Except.ok (0 : ℕ))
        [⟨"I50", .val 5, some "ADM1"⟩, ⟨"A01", .val 3, some "ADM2"⟩])[0]? =
      some (.success (some "ADM1") 0) ∧
    (HIMService.batchPredictAdmissions
        (fun r => if r.admission_id = some "ADM2" then
            Except.error (PyError.typeError "corrupt feature")
          else Except.ok (0 : ℕ))
        [⟨"I50", .val 5, some "ADM1"⟩, ⟨"A01", .val 3, some "ADM2"⟩])[1]? =
      some (.failure (some "ADM2") "corrupt feature") := by
  have h := c8_batch_isolation
    (fun r => if r.admission_id = some "ADM2" then
        Except.error (PyError.typeError "corrupt feature")
      else Except.ok (0 : ℕ))
    [⟨"I50", .val 5, some "ADM1"⟩, ⟨"A01", .val 3, some "ADM2"⟩]
  exact ⟨h.1, h.2.2.1 0 ⟨"I50", .val 5, some "ADM1"⟩ 0 rfl rfl,
    h.2.2.2 1 ⟨"A01", .val 3, some "ADM2"⟩ "corrupt feature" rfl rfl⟩

/-- C9, confirmed: when the learned path of `predict_group` or
`predict_denial_risk` raises, the call returns the rule-based result instead,
and the loaded-model flags are returned unchanged (the methods never assign
them), so a repeated call starts from the same state and again attempts the
learned path first. -/
theorem c9_fallback_call_scoped :
    ∀ (st : ServiceState)
      (mlG : AdmissionData → Except PyError GroupPrediction)
      (mlD : AdmissionData → Except PyError DenialRisk)
      (d : AdmissionData) (e₁ e₂ : PyError),
      ((PredictionService.predictGroup st mlG d).2 = st) ∧
      ((PredictionService.predictDenialRisk st mlD d).2 = st) ∧
      (mlG d = .error e₁ →
        (PredictionService.predictGroup st mlG d).1 =
          PredictionService.predictWithRules d) ∧
      (mlD d = .error e₂ →
        (PredictionService.predictDenialRisk st mlD d).1 =
          PredictionService.predictDenialWithRules d) ∧
      (PredictionService.predictGroup
          (PredictionService.predictGroup st mlG d).2 mlG d =
        PredictionService.predictGroup st mlG d) := by
  intro st mlG mlD d e₁ e₂
  have hG2 : (PredictionService.predictGroup st mlG d).2 = st := by
    unfold PredictionService.predictGroup
    split_ifs
    · cases mlG d <;> rfl
    · rfl
  have hD2 : (PredictionService.predictDenialRisk st mlD d).2 = st := by
    unfold PredictionService.predictDenialRisk
    split_ifs
    · cases mlD d <;> rfl
    · rfl
  refine ⟨hG2, hD2, ?_, ?_, ?_⟩
  · intro h
    unfold PredictionService.predictGroup
    split_ifs
    · simp only [h]
    · rfl
  · intro h
    unfold PredictionService.predictDenialRisk
    split_ifs
    · simp only [h]
    · rfl
  · rw [hG2]

/-- Witness for C9: with both models loaded and a learned path that always
raises, a concrete call returns the rule-based results and leaves the state
flags untouched. -/
theorem c9_fallback_call_scoped_witness :
    ((PredictionService.predictGroup ⟨true, true, true⟩
        (fun _ => .error (.typeError "ml failure"))
        ⟨"A11", .val 5, Option.none⟩).1 =
      PredictionService.predictWithRules ⟨"A11", .val 5, Option.none⟩) ∧
    ((PredictionService.predictGroup ⟨true, true, true⟩
        (fun _ => .error (.typeError "ml failure"))
        ⟨"A11", .val 5, Option.none⟩).2 = ⟨true, true, true⟩) ∧
    ((PredictionService.predictDenialRisk ⟨true, true, true⟩
        (fun _ => .error (.typeError "ml failure"))
        ⟨"A11", .val 5, Option.none⟩).1 =
      PredictionService.predictDenialWithRules ⟨"A11", .val 5, Option.none⟩) := by
  have h := c9_fallback_call_scoped ⟨true, true, true⟩
    (fun _ => .error (.typeError "ml failure"))
    (fun _ => .error (.typeError "ml failure"))
    ⟨"A11", .val 5, Option.none⟩ (.typeError "ml failure") (.typeError "ml failure")
  exact ⟨h.2.2.1 rfl, h.1, h.2.2.2.1 rfl⟩

end SmartHIM
